import Mathlib

/-!
Shallow embedding of the duckdb-async adapter (src/src/duckdb-async.ts).

The adapter wraps the callback-based duckdb Node.JS client behind
promise-returning methods.  Each wrapper class (Database, Connection,
Statement) holds a nullable reference to a native resource; public
operations check that reference before forwarding to the native layer.

The native layer is opaque here: it is modelled by abstract handle types
and by an oracle (NativeEnv) assigning to every native call an outcome
(success or a native error) and, where relevant, the produced native
objects.  Every wrapper method becomes a Lean function that reports
exactly which native calls it makes, what it returns, and through which
channel a local failure travels (synchronous throw versus an already
rejected promise).
-/

/-- Abstract handle for a native duckdb Database instance. -/
structure NativeDb where
  id : Nat
  deriving Repr, DecidableEq

/-- Abstract handle for a native duckdb Connection instance. -/
structure NativeConn where
  id : Nat
  deriving Repr, DecidableEq

/-- Abstract handle for a native duckdb Statement instance. -/
structure NativeStmt where
  id : Nat
  deriving Repr, DecidableEq

/-- A native-layer error value (duckdb.DuckDbError): message plus code tag. -/
structure NativeErr where
  message : String
  deriving Repr, DecidableEq

/-- Column descriptor returned by the native columns() accessor. -/
structure ColumnInfo where
  name : String
  sqlType : String
  deriving Repr, DecidableEq

/-- JavaScript argument values as far as the adapter inspects them: the
adapter forwards arguments opaquely, so we only distinguish strings,
numbers, booleans, function values (user callbacks), configuration
records, and the trailing callback manufactured by the promisify bridge. -/
inductive JSVal where
  | str (s : String)
  | num (n : Int)
  | boolean (b : Bool)
  | fn (id : Nat)
  | record (cfg : List (String × String))
  | promisifyCallback
  deriving Repr, DecidableEq

/-- The receiver of a native call: a method on a native database handle, a
native connection handle, a native statement handle, or the engine itself
(the native Database and Connection constructors). -/
inductive NativeTarget where
  | db (h : NativeDb)
  | conn (h : NativeConn)
  | stmt (h : NativeStmt)
  | engine
  deriving Repr, DecidableEq

/-- One invocation of the native layer: target, method name, and the exact
argument list handed over. -/
structure NativeCall where
  target : NativeTarget
  method : String
  args : List JSVal
  deriving Repr, DecidableEq

/-- Oracle for the opaque native layer: the outcome each native call
reports through its callback (none = success), and the native objects a
successful call produces. -/
structure NativeEnv where
  result : NativeCall → Option NativeErr
  stmtOf : NativeCall → NativeStmt
  connOf : NativeCall → NativeConn
  openOf : NativeCall → NativeDb
  columnsOf : NativeStmt → List ColumnInfo

/-- A settled promise as observed by the caller of a wrapper method:
rejected by a local (adapter-detected) error, rejected by a propagated
native error, or resolved with a value. -/
inductive Promise (α : Type) where
  | rejectedLocal (msg : String)
  | rejectedNative (e : NativeErr)
  | resolved (v : α)
  deriving Repr, DecidableEq

/-- Result of invoking one wrapper method: either the method throws
synchronously (before returning anything), or it returns a value after
making the listed native calls.  A validity-check failure in a method
that is not declared async throws synchronously; in an async method it
surfaces as a returned, already rejected promise. -/
inductive MethodResult (α : Type) where
  | throwSync (msg : String)
  | returns (calls : List NativeCall) (ret : α)
  deriving Repr, DecidableEq

/-- methodPromisify (duckdb-async.ts lines 36-42): the bridge invokes the
native method with the given arguments plus a bridge-generated trailing
callback; the resulting promise rejects with the native error when the
callback reports one and resolves (with onSuccess of the call) otherwise. -/
def bridgedCall {α : Type} (env : NativeEnv) (target : NativeTarget)
    (method : String) (args : List JSVal) (onSuccess : NativeCall → α) :
    List NativeCall × Promise α :=
  let call : NativeCall := ⟨target, method, args ++ [JSVal.promisifyCallback]⟩
  ([call],
    match env.result call with
    | some e => Promise.rejectedNative e
    | none => Promise.resolved (onSuccess call))

/-- A signal sent to a pending promise by a construction callback. -/
inductive Signal (α : Type) where
  | resolveSig (v : α)
  | rejectSig (e : NativeErr)
  deriving Repr, DecidableEq

/-- The final state of a settled promise. -/
inductive Settlement (α : Type) where
  | resolvedWith (v : α)
  | rejectedWith (e : NativeErr)
  deriving Repr, DecidableEq

/-- A promise honors only the first settlement signal it receives; later
signals are ignored. -/
def settleFirst {α : Type} : List (Signal α) → Option (Settlement α)
  | [] => none
  | Signal.resolveSig v :: _ => some (Settlement.resolvedWith v)
  | Signal.rejectSig e :: _ => some (Settlement.rejectedWith e)

/-- JavaScript object key assignment (cfg[k] = v): replace the value at an
existing key in place, otherwise append the new binding. -/
def setKey : List (String × String) → String → String → List (String × String)
  | [], k, v => [(k, v)]
  | (a, b) :: t, k, v =>
      if a = k then (k, v) :: t else (a, b) :: setKey t k v

/-- Lookup of a key in a configuration record. -/
def lookupKey : List (String × String) → String → Option String
  | [], _ => none
  | (a, b) :: t, k => if a = k then some b else lookupKey t k

/-- Flag-style open-mode constants re-exported from the duckdb package
(sqlite-style bit flags).  Only equality with OPEN_READONLY is ever
inspected by the adapter. -/
def OPEN_READONLY : Nat := 1

/-- Read-write open flag from the duckdb package. -/
def OPEN_READWRITE : Nat := 2

/-- Create-if-missing open flag from the duckdb package. -/
def OPEN_CREATE : Nat := 4

/-- The accessMode argument of Database.create: a flag-style number or a
named-option configuration record. -/
inductive AccessMode where
  | flag (n : Nat)
  | record (cfg : List (String × String))
  deriving Repr, DecidableEq

/-- The Database wrapper: holds the native database handle, or null once
closed (duckdb-async.ts line 302). -/
structure Database where
  db : Option NativeDb
  deriving Repr, DecidableEq

/-- The Connection wrapper: holds the native connection handle, or null
once closed or after failed construction (line 81). -/
structure Connection where
  conn : Option NativeConn
  deriving Repr, DecidableEq

/-- The Statement wrapper: holds a native statement handle; the field is
not nullable and no operation ever clears it (line 553). -/
structure Statement where
  stmt : NativeStmt
  deriving Repr, DecidableEq

/-- Database constructor normalization (lines 310-315): a numeric
accessMode becomes a record whose access_mode is read_only exactly for
OPEN_READONLY and read_write otherwise; then duckdb_api is assigned the
value nodejs-async on the record. -/
def Database.ctorConfig (accessMode : AccessMode) : List (String × String) :=
  let base :=
    match accessMode with
    | AccessMode.flag n =>
        [("access_mode", if n = OPEN_READONLY then "read_only" else "read_write")]
    | AccessMode.record cfg => cfg
  setKey base "duckdb_api" "nodejs-async"

/-- The signals the Database construction callback (lines 317-322) sends
to the pending create promise: on a native error it calls reject and then,
without returning, unconditionally calls resolve; on success it calls only
resolve.  The object passed to resolve keeps its native handle. -/
def databaseCtorSignals (self : Database) (err : Option NativeErr) :
    List (Signal Database) :=
  match err with
  | some e => [Signal.rejectSig e, Signal.resolveSig self]
  | none => [Signal.resolveSig self]

/-- Database.create (lines 336-344) together with the private constructor
(lines 304-323): an omitted accessMode defaults to OPEN_READWRITE; the
native Database constructor is invoked with the path and the normalized
configuration, and the returned promise settles from the first signal the
construction callback sends. -/
def Database.create (env : NativeEnv) (path : String)
    (accessMode : Option AccessMode) : NativeCall × Option (Settlement Database) :=
  let trueAccessMode := accessMode.getD (AccessMode.flag OPEN_READWRITE)
  let call : NativeCall :=
    ⟨NativeTarget.engine, "Database",
      [JSVal.str path, JSVal.record (Database.ctorConfig trueAccessMode)]⟩
  let self : Database := { db := some (env.openOf call) }
  (call, settleFirst (databaseCtorSignals self (env.result call)))

/-- Assigning a key makes it the binding found by lookup. -/
theorem lookupKey_setKey (cfg : List (String × String)) (k v : String) :
    lookupKey (setKey cfg k v) k = some v := by
  induction cfg with
  | nil => simp [setKey, lookupKey]
  | cons p t ih =>
      obtain ⟨a, b⟩ := p
      by_cases h : a = k
      · simp [setKey, h, lookupKey]
      · simp [setKey, h, lookupKey, ih]

/-- C3: a flag-style accessMode is normalized to the equivalent named
configuration before being handed to the native layer (OPEN_READONLY to
access_mode read_only, every other flag to access_mode read_write), and
for every accessMode, flag-style or record, the configuration passed to
the native Database constructor carries duckdb_api = nodejs-async. -/
theorem c3_access_mode_normalized_and_api_tagged
    (env : NativeEnv) (path : String) (m : AccessMode) :
    (Database.create env path (some m)).1.args
        = [JSVal.str path, JSVal.record (Database.ctorConfig m)]
    ∧ lookupKey (Database.ctorConfig m) "duckdb_api" = some "nodejs-async"
    ∧ (∀ n : Nat, Database.ctorConfig (AccessMode.flag n)
        = [("access_mode", if n = OPEN_READONLY then "read_only" else "read_write"),
           ("duckdb_api", "nodejs-async")]) := by
  refine ⟨rfl, ?_, ?_⟩
  · exact lookupKey_setKey _ _ _
  · intro n
    simp [Database.ctorConfig, setKey]

/-- C4: the promise returned by Database.create settles deterministically:
it is rejected with the native initialization error whenever the native
layer reports one, and resolved with a Ready Database (handle present)
otherwise.  Determinism holds even though the construction callback sends
a reject signal and then unconditionally a resolve signal, because the
promise honors only the first signal and the reject signal is sent first. -/
theorem c4_create_settles_error_first
    (env : NativeEnv) (path : String) (m : Option AccessMode) :
    (Database.create env path m).2
      = some (match env.result (Database.create env path m).1 with
          | some e => Settlement.rejectedWith e
          | none =>
              Settlement.resolvedWith
                { db := some (env.openOf (Database.create env path m).1) }) := by
  have h2 : (Database.create env path m).2
      = settleFirst (databaseCtorSignals
          { db := some (env.openOf (Database.create env path m).1) }
          (env.result (Database.create env path m).1)) := rfl
  rw [h2]
  cases h : env.result (Database.create env path m).1 with
  | none => simp [databaseCtorSignals, settleFirst]
  | some e => simp [databaseCtorSignals, settleFirst]

/-- C9: calling Database.create with the accessMode argument omitted
behaves exactly as passing the flag-style OPEN_READWRITE mode, and the
configuration handed to the native layer is access_mode read_write plus
the duckdb_api nodejs-async tag. -/
theorem c9_default_access_mode_read_write (env : NativeEnv) (path : String) :
    Database.create env path none
        = Database.create env path (some (AccessMode.flag OPEN_READWRITE))
    ∧ (Database.create env path none).1.args
        = [JSVal.str path,
           JSVal.record [("access_mode", "read_write"), ("duckdb_api", "nodejs-async")]] := by
  exact ⟨rfl, rfl⟩

/-- Connection.create (lines 101-105) with the private constructor
(lines 83-95): the promise executor calls get_ddb_internal on the given
Database; its throw on a null handle happens inside the executor and
therefore rejects the returned promise, and the native Connection
constructor is never invoked.  On a valid handle the native Connection
constructor runs; its callback, on error, nulls the handle and calls
reject, then unconditionally calls resolve, and the promise honors only
the first signal. -/
def Connection.create (env : NativeEnv) (db : Database) :
    MethodResult (Promise Connection) :=
  match db.db with
  | none =>
      MethodResult.returns []
        (Promise.rejectedLocal "Database.get_ddb_internal: uninitialized database")
  | some hd =>
      let call : NativeCall := ⟨NativeTarget.db hd, "Connection", []⟩
      match env.result call with
      | some e => MethodResult.returns [call] (Promise.rejectedNative e)
      | none =>
          MethodResult.returns [call]
            (Promise.resolved { conn := some (env.connOf call) })

/-- Connection.all (lines 107-112). -/
def Connection.all (env : NativeEnv) (c : Connection) (sql : String)
    (args : List JSVal) : MethodResult (Promise Unit) :=
  match c.conn with
  | none =>
      MethodResult.returns []
        (Promise.rejectedLocal "Connection.all: uninitialized connection")
  | some h =>
      let r := bridgedCall env (NativeTarget.conn h) "all" (JSVal.str sql :: args)
        (fun _ => ())
      MethodResult.returns r.1 r.2

/-- Connection.arrowIPCAll (lines 114-119). -/
def Connection.arrowIPCAll (env : NativeEnv) (c : Connection) (sql : String)
    (args : List JSVal) : MethodResult (Promise Unit) :=
  match c.conn with
  | none =>
      MethodResult.returns []
        (Promise.rejectedLocal "Connection.arrowIPCAll: uninitialized connection")
  | some h =>
      let r := bridgedCall env (NativeTarget.conn h) "arrowIPCAll"
        (JSVal.str sql :: args) (fun _ => ())
      MethodResult.returns r.1 r.2

/-- Connection.each (lines 129-134): not bridged; forwards the argument
list, whose trailing element is the per-row user callback, unchanged to
the native each, and returns no promise.  The method is not declared
async, so the validity failure is a synchronous throw. -/
def Connection.each (c : Connection) (sql : String) (args : List JSVal) :
    MethodResult Unit :=
  match c.conn with
  | none => MethodResult.throwSync "Connection.each: uninitialized connection"
  | some h =>
      MethodResult.returns [⟨NativeTarget.conn h, "each", JSVal.str sql :: args⟩] ()

/-- Connection.exec (lines 142-147). -/
def Connection.exec (env : NativeEnv) (c : Connection) (sql : String)
    (args : List JSVal) : MethodResult (Promise Unit) :=
  match c.conn with
  | none =>
      MethodResult.returns []
        (Promise.rejectedLocal "Connection.exec: uninitialized connection")
  | some h =>
      let r := bridgedCall env (NativeTarget.conn h) "exec" (JSVal.str sql :: args)
        (fun _ => ())
      MethodResult.returns r.1 r.2

/-- Statement.create_internal (lines 567-569). -/
def Statement.create_internal (stmt : NativeStmt) : Statement :=
  { stmt := stmt }

/-- Connection.prepareSync (lines 149-155): synchronous; issues the native
prepare call directly (no bridge callback) and wraps the produced native
statement. -/
def Connection.prepareSync (env : NativeEnv) (c : Connection) (sql : String)
    (args : List JSVal) : MethodResult Statement :=
  match c.conn with
  | none =>
      MethodResult.throwSync "Connection.prepareSync: uninitialized connection"
  | some h =>
      let call : NativeCall := ⟨NativeTarget.conn h, "prepare", JSVal.str sql :: args⟩
      MethodResult.returns [call] (Statement.create_internal (env.stmtOf call))

/-- Connection.prepare (lines 157-163). -/
def Connection.prepare (env : NativeEnv) (c : Connection) (sql : String)
    (args : List JSVal) : MethodResult (Promise Statement) :=
  match c.conn with
  | none =>
      MethodResult.returns []
        (Promise.rejectedLocal "Connection.prepare: uninitialized connection")
  | some h =>
      let r := bridgedCall env (NativeTarget.conn h) "prepare" (JSVal.str sql :: args)
        (fun call => Statement.create_internal (env.stmtOf call))
      MethodResult.returns r.1 r.2

/-- Connection.runSync (lines 165-173). -/
def Connection.runSync (env : NativeEnv) (c : Connection) (sql : String)
    (args : List JSVal) : MethodResult Statement :=
  match c.conn with
  | none => MethodResult.throwSync "Connection.runSync: uninitialized connection"
  | some h =>
      let call : NativeCall := ⟨NativeTarget.conn h, "run", JSVal.str sql :: args⟩
      MethodResult.returns [call] (Statement.create_internal (env.stmtOf call))

/-- Connection.run (lines 175-181); note the error message in the source
names runSync. -/
def Connection.run (env : NativeEnv) (c : Connection) (sql : String)
    (args : List JSVal) : MethodResult (Promise Statement) :=
  match c.conn with
  | none =>
      MethodResult.returns []
        (Promise.rejectedLocal "Connection.runSync: uninitialized connection")
  | some h =>
      let r := bridgedCall env (NativeTarget.conn h) "run" (JSVal.str sql :: args)
        (fun call => Statement.create_internal (env.stmtOf call))
      MethodResult.returns r.1 r.2

/-- Connection.register_udf (lines 183-192): synchronous, direct native
call. -/
def Connection.register_udf (c : Connection) (name return_type : String)
    (fun_ : JSVal) : MethodResult Unit :=
  match c.conn with
  | none =>
      MethodResult.throwSync "Connection.register_udf: uninitialized connection"
  | some h =>
      MethodResult.returns
        [⟨NativeTarget.conn h, "register_udf",
          [JSVal.str name, JSVal.str return_type, fun_]⟩] ()

/-- Connection.unregister_udf (lines 193-198). -/
def Connection.unregister_udf (env : NativeEnv) (c : Connection) (name : String) :
    MethodResult (Promise Unit) :=
  match c.conn with
  | none =>
      MethodResult.returns []
        (Promise.rejectedLocal "Connection.unregister_udf: uninitialized connection")
  | some h =>
      let r := bridgedCall env (NativeTarget.conn h) "unregister_udf"
        [JSVal.str name] (fun _ => ())
      MethodResult.returns r.1 r.2

/-- Connection.register_bulk (lines 199-208): synchronous, direct native
call. -/
def Connection.register_bulk (c : Connection) (name return_type : String)
    (fun_ : JSVal) : MethodResult Unit :=
  match c.conn with
  | none =>
      MethodResult.throwSync "Connection.register_bulk: uninitialized connection"
  | some h =>
      MethodResult.returns
        [⟨NativeTarget.conn h, "register_bulk",
          [JSVal.str name, JSVal.str return_type, fun_]⟩] ()

/-- Connection.stream (lines 210-215): synchronous, returns the native
query-result object directly. -/
def Connection.stream (c : Connection) (sql : String) (args : List JSVal) :
    MethodResult Unit :=
  match c.conn with
  | none => MethodResult.throwSync "Connection.stream: uninitialized connection"
  | some h =>
      MethodResult.returns [⟨NativeTarget.conn h, "stream", JSVal.str sql :: args⟩] ()

/-- Connection.arrowIPCStream (lines 217-225): not declared async (the
validity failure is a synchronous throw); returns the promise produced by
the native method itself, with no bridge callback appended. -/
def Connection.arrowIPCStream (env : NativeEnv) (c : Connection) (sql : String)
    (args : List JSVal) : MethodResult (Promise Unit) :=
  match c.conn with
  | none =>
      MethodResult.throwSync "Connection.arrowIPCStream: uninitialized connection"
  | some h =>
      let call : NativeCall := ⟨NativeTarget.conn h, "arrowIPCStream", JSVal.str sql :: args⟩
      MethodResult.returns [call]
        (match env.result call with
         | some e => Promise.rejectedNative e
         | none => Promise.resolved ())

/-- Connection.register_buffer (lines 227-236): not declared async, so the
validity failure is a synchronous throw; the forwarding is bridged. -/
def Connection.register_buffer (env : NativeEnv) (c : Connection) (name : String)
    (array : JSVal) (force : Bool) : MethodResult (Promise Unit) :=
  match c.conn with
  | none =>
      MethodResult.throwSync "Connection.register_buffer: uninitialized connection"
  | some h =>
      let r := bridgedCall env (NativeTarget.conn h) "register_buffer"
        [JSVal.str name, array, JSVal.boolean force] (fun _ => ())
      MethodResult.returns r.1 r.2

/-- Connection.unregister_buffer (lines 238-243): not declared async. -/
def Connection.unregister_buffer (env : NativeEnv) (c : Connection) (name : String) :
    MethodResult (Promise Unit) :=
  match c.conn with
  | none =>
      MethodResult.throwSync "Connection.unregister_buffer: uninitialized connection"
  | some h =>
      let r := bridgedCall env (NativeTarget.conn h) "unregister_buffer"
        [JSVal.str name] (fun _ => ())
      MethodResult.returns r.1 r.2

/-- Connection.close (lines 245-252): on success the awaited native close
completes and the handle is nulled; on a native failure the await throws,
so the handle keeps its value.  Returns the method result together with
the state of the wrapper afterwards. -/
def Connection.close (env : NativeEnv) (c : Connection) :
    MethodResult (Promise Unit) × Connection :=
  match c.conn with
  | none =>
      (MethodResult.returns []
        (Promise.rejectedLocal "Connection.close: uninitialized connection"), c)
  | some h =>
      let call : NativeCall := ⟨NativeTarget.conn h, "close", [JSVal.promisifyCallback]⟩
      match env.result call with
      | some e => (MethodResult.returns [call] (Promise.rejectedNative e), c)
      | none => (MethodResult.returns [call] (Promise.resolved ()), { conn := none })

/-- Database.close (lines 346-353): on success the awaited native close
completes and the handle is nulled; on a native failure the await throws
and the handle keeps its value. -/
def Database.close (env : NativeEnv) (d : Database) :
    MethodResult (Promise Unit) × Database :=
  match d.db with
  | none =>
      (MethodResult.returns []
        (Promise.rejectedLocal "Database.close: uninitialized database"), d)
  | some h =>
      let call : NativeCall := ⟨NativeTarget.db h, "close", [JSVal.promisifyCallback]⟩
      match env.result call with
      | some e => (MethodResult.returns [call] (Promise.rejectedNative e), d)
      | none => (MethodResult.returns [call] (Promise.resolved ()), { db := none })

/-- Database.get_ddb_internal (lines 356-361): synchronous accessor for
the native handle; throws on a null handle, makes no native call. -/
def Database.get_ddb_internal (d : Database) : MethodResult NativeDb :=
  match d.db with
  | none => MethodResult.throwSync "Database.get_ddb_internal: uninitialized database"
  | some h => MethodResult.returns [] h

/-- Database.connect (lines 363-365): delegates to Connection.create. -/
def Database.connect (env : NativeEnv) (d : Database) :
    MethodResult (Promise Connection) :=
  Connection.create env d

/-- Database.all (lines 367-372). -/
def Database.all (env : NativeEnv) (d : Database) (sql : String)
    (args : List JSVal) : MethodResult (Promise Unit) :=
  match d.db with
  | none =>
      MethodResult.returns []
        (Promise.rejectedLocal "Database.all: uninitialized database")
  | some h =>
      let r := bridgedCall env (NativeTarget.db h) "all" (JSVal.str sql :: args)
        (fun _ => ())
      MethodResult.returns r.1 r.2

/-- Database.arrowIPCAll (lines 374-379); the source message says
uninitialized connection. -/
def Database.arrowIPCAll (env : NativeEnv) (d : Database) (sql : String)
    (args : List JSVal) : MethodResult (Promise Unit) :=
  match d.db with
  | none =>
      MethodResult.returns []
        (Promise.rejectedLocal "Database.arrowIPCAll: uninitialized connection")
  | some h =>
      let r := bridgedCall env (NativeTarget.db h) "arrowIPCAll"
        (JSVal.str sql :: args) (fun _ => ())
      MethodResult.returns r.1 r.2

/-- Database.each (lines 389-394): not bridged; forwards the argument
list, whose trailing element is the per-row user callback, unchanged to
the native each, and returns no promise.  Not declared async, so the
validity failure is a synchronous throw. -/
def Database.each (d : Database) (sql : String) (args : List JSVal) :
    MethodResult Unit :=
  match d.db with
  | none => MethodResult.throwSync "Database.each: uninitialized database"
  | some h =>
      MethodResult.returns [⟨NativeTarget.db h, "each", JSVal.str sql :: args⟩] ()

/-- Database.exec (lines 402-407). -/
def Database.exec (env : NativeEnv) (d : Database) (sql : String)
    (args : List JSVal) : MethodResult (Promise Unit) :=
  match d.db with
  | none =>
      MethodResult.returns []
        (Promise.rejectedLocal "Database.exec: uninitialized database")
  | some h =>
      let r := bridgedCall env (NativeTarget.db h) "exec" (JSVal.str sql :: args)
        (fun _ => ())
      MethodResult.returns r.1 r.2

/-- Database.prepareSync (lines 409-415): synchronous; issues the native
prepare call directly (no bridge callback) and wraps the produced native
statement. -/
def Database.prepareSync (env : NativeEnv) (d : Database) (sql : String)
    (args : List JSVal) : MethodResult Statement :=
  match d.db with
  | none => MethodResult.throwSync "Database.prepareSync: uninitialized database"
  | some h =>
      let call : NativeCall := ⟨NativeTarget.db h, "prepare", JSVal.str sql :: args⟩
      MethodResult.returns [call] (Statement.create_internal (env.stmtOf call))

/-- Database.prepare (lines 417-423). -/
def Database.prepare (env : NativeEnv) (d : Database) (sql : String)
    (args : List JSVal) : MethodResult (Promise Statement) :=
  match d.db with
  | none =>
      MethodResult.returns []
        (Promise.rejectedLocal "Database.prepare: uninitialized database")
  | some h =>
      let r := bridgedCall env (NativeTarget.db h) "prepare" (JSVal.str sql :: args)
        (fun call => Statement.create_internal (env.stmtOf call))
      MethodResult.returns r.1 r.2

/-- Database.runSync (lines 425-433). -/
def Database.runSync (env : NativeEnv) (d : Database) (sql : String)
    (args : List JSVal) : MethodResult Statement :=
  match d.db with
  | none => MethodResult.throwSync "Database.runSync: uninitialized database"
  | some h =>
      let call : NativeCall := ⟨NativeTarget.db h, "run", JSVal.str sql :: args⟩
      MethodResult.returns [call] (Statement.create_internal (env.stmtOf call))

/-- Database.run (lines 435-441); note the error message in the source
names runSync. -/
def Database.run (env : NativeEnv) (d : Database) (sql : String)
    (args : List JSVal) : MethodResult (Promise Statement) :=
  match d.db with
  | none =>
      MethodResult.returns []
        (Promise.rejectedLocal "Database.runSync: uninitialized database")
  | some h =>
      let r := bridgedCall env (NativeTarget.db h) "run" (JSVal.str sql :: args)
        (fun call => Statement.create_internal (env.stmtOf call))
      MethodResult.returns r.1 r.2

/-- Database.register_udf (lines 443-452): synchronous, direct native
call; the source message says Database.register. -/
def Database.register_udf (d : Database) (name return_type : String)
    (fun_ : JSVal) : MethodResult Unit :=
  match d.db with
  | none => MethodResult.throwSync "Database.register: uninitialized database"
  | some h =>
      MethodResult.returns
        [⟨NativeTarget.db h, "register_udf",
          [JSVal.str name, JSVal.str return_type, fun_]⟩] ()

/-- Database.unregister_udf (lines 453-458); the source message says
Database.unregister. -/
def Database.unregister_udf (env : NativeEnv) (d : Database) (name : String) :
    MethodResult (Promise Unit) :=
  match d.db with
  | none =>
      MethodResult.returns []
        (Promise.rejectedLocal "Database.unregister: uninitialized database")
  | some h =>
      let r := bridgedCall env (NativeTarget.db h) "unregister_udf"
        [JSVal.str name] (fun _ => ())
      MethodResult.returns r.1 r.2

/-- Database.stream (lines 460-465): synchronous, returns the native
query-result object directly. -/
def Database.stream (d : Database) (sql : String) (args : List JSVal) :
    MethodResult Unit :=
  match d.db with
  | none => MethodResult.throwSync "Database.stream: uninitialized database"
  | some h =>
      MethodResult.returns [⟨NativeTarget.db h, "stream", JSVal.str sql :: args⟩] ()

/-- Database.arrowIPCStream (lines 467-475): not declared async; returns
the promise produced by the native method itself. -/
def Database.arrowIPCStream (env : NativeEnv) (d : Database) (sql : String)
    (args : List JSVal) : MethodResult (Promise Unit) :=
  match d.db with
  | none =>
      MethodResult.throwSync "Database.arrowIPCStream: uninitialized database"
  | some h =>
      let call : NativeCall := ⟨NativeTarget.db h, "arrowIPCStream", JSVal.str sql :: args⟩
      MethodResult.returns [call]
        (match env.result call with
         | some e => Promise.rejectedNative e
         | none => Promise.resolved ())

/-- Database.serialize (lines 477-482): not declared async; returns the
bridged promise. -/
def Database.serialize (env : NativeEnv) (d : Database) :
    MethodResult (Promise Unit) :=
  match d.db with
  | none => MethodResult.throwSync "Database.serialize: uninitialized database"
  | some h =>
      let r := bridgedCall env (NativeTarget.db h) "serialize" [] (fun _ => ())
      MethodResult.returns r.1 r.2

/-- Database.parallelize (lines 484-489): not declared async; returns the
bridged promise. -/
def Database.parallelize (env : NativeEnv) (d : Database) :
    MethodResult (Promise Unit) :=
  match d.db with
  | none => MethodResult.throwSync "Database.parallelize: uninitialized database"
  | some h =>
      let r := bridgedCall env (NativeTarget.db h) "parallelize" [] (fun _ => ())
      MethodResult.returns r.1 r.2

/-- Database.wait (lines 491-496): not declared async; returns the
bridged promise. -/
def Database.wait (env : NativeEnv) (d : Database) : MethodResult (Promise Unit) :=
  match d.db with
  | none => MethodResult.throwSync "Database.wait: uninitialized database"
  | some h =>
      let r := bridgedCall env (NativeTarget.db h) "wait" [] (fun _ => ())
      MethodResult.returns r.1 r.2

/-- Database.interrupt (lines 498-503): synchronous, direct native call. -/
def Database.interrupt (d : Database) : MethodResult Unit :=
  match d.db with
  | none => MethodResult.throwSync "Database.interrupt: uninitialized database"
  | some h => MethodResult.returns [⟨NativeTarget.db h, "interrupt", []⟩] ()

/-- Database.register_buffer (lines 505-514): not declared async; the
forwarding is bridged. -/
def Database.register_buffer (env : NativeEnv) (d : Database) (name : String)
    (array : JSVal) (force : Bool) : MethodResult (Promise Unit) :=
  match d.db with
  | none => MethodResult.throwSync "Database.register_buffer: uninitialized database"
  | some h =>
      let r := bridgedCall env (NativeTarget.db h) "register_buffer"
        [JSVal.str name, array, JSVal.boolean force] (fun _ => ())
      MethodResult.returns r.1 r.2

/-- Database.unregister_buffer (lines 516-521): not declared async. -/
def Database.unregister_buffer (env : NativeEnv) (d : Database) (name : String) :
    MethodResult (Promise Unit) :=
  match d.db with
  | none => MethodResult.throwSync "Database.unregister_buffer: uninitialized database"
  | some h =>
      let r := bridgedCall env (NativeTarget.db h) "unregister_buffer"
        [JSVal.str name] (fun _ => ())
      MethodResult.returns r.1 r.2

/-- Database.registerReplacementScan (lines 523-532): not declared async;
returns the promise produced by the native method itself. -/
def Database.registerReplacementScan (env : NativeEnv) (d : Database)
    (replacementScan : JSVal) : MethodResult (Promise Unit) :=
  match d.db with
  | none =>
      MethodResult.throwSync "Database.registerReplacementScan: uninitialized database"
  | some h =>
      let call : NativeCall :=
        ⟨NativeTarget.db h, "registerReplacementScan", [replacementScan]⟩
      MethodResult.returns [call]
        (match env.result call with
         | some e => Promise.rejectedNative e
         | none => Promise.resolved ())

/-- Statement.all (lines 571-573): no validity check exists; the call is
always forwarded. -/
def Statement.all (env : NativeEnv) (s : Statement) (args : List JSVal) :
    MethodResult (Promise Unit) :=
  let r := bridgedCall env (NativeTarget.stmt s.stmt) "all" args (fun _ => ())
  MethodResult.returns r.1 r.2

/-- Statement.arrowIPCAll (lines 574-576): no validity check exists. -/
def Statement.arrowIPCAll (env : NativeEnv) (s : Statement) (args : List JSVal) :
    MethodResult (Promise Unit) :=
  let r := bridgedCall env (NativeTarget.stmt s.stmt) "arrowIPCAll" args (fun _ => ())
  MethodResult.returns r.1 r.2

/-- Statement.each (lines 587-589): not bridged; forwards the argument
list, whose trailing element is the per-row user callback, unchanged to
the native each, and returns no promise.  No validity check exists. -/
def Statement.each (s : Statement) (args : List JSVal) : MethodResult Unit :=
  MethodResult.returns [⟨NativeTarget.stmt s.stmt, "each", args⟩] ()

/-- Statement.runSync (lines 596-599): calls the native run directly
without awaiting and returns the receiver itself. -/
def Statement.runSync (s : Statement) (args : List JSVal) : MethodResult Statement :=
  MethodResult.returns [⟨NativeTarget.stmt s.stmt, "run", args⟩] s

/-- Statement.run (lines 601-604): awaits the bridged native run and then
resolves with the receiver itself. -/
def Statement.run (env : NativeEnv) (s : Statement) (args : List JSVal) :
    MethodResult (Promise Statement) :=
  let r := bridgedCall env (NativeTarget.stmt s.stmt) "run" args (fun _ => s)
  MethodResult.returns r.1 r.2

/-- Statement.finalize (lines 606-608): bridged native finalize; the
wrapper performs no state change and no validity check, so the wrapper
value afterwards is unchanged. -/
def Statement.finalize (env : NativeEnv) (s : Statement) :
    MethodResult (Promise Unit) :=
  let r := bridgedCall env (NativeTarget.stmt s.stmt) "finalize" [] (fun _ => ())
  MethodResult.returns r.1 r.2

/-- Statement.columns (lines 610-612): synchronous, direct native call
returning the column descriptors. -/
def Statement.columns (env : NativeEnv) (s : Statement) :
    MethodResult (List ColumnInfo) :=
  MethodResult.returns [⟨NativeTarget.stmt s.stmt, "columns", []⟩]
    (env.columnsOf s.stmt)

/-- The public operations of the Connection wrapper. -/
inductive ConnOp where
  | all | arrowIPCAll | each | exec | prepareSync | prepare | runSync | run
  | register_udf | unregister_udf | register_bulk | stream | arrowIPCStream
  | register_buffer | unregister_buffer | close
  deriving Repr, DecidableEq

/-- Which Connection operations return a promise, read off the TypeScript
signatures (lines 107-252): stream returns a QueryResult, each returns
void, the Sync variants and the udf/bulk registrations return plain
values; everything else returns a Promise. -/
def ConnOp.returnsPromise : ConnOp → Bool
  | ConnOp.all => true
  | ConnOp.arrowIPCAll => true
  | ConnOp.each => false
  | ConnOp.exec => true
  | ConnOp.prepareSync => false
  | ConnOp.prepare => true
  | ConnOp.runSync => false
  | ConnOp.run => true
  | ConnOp.register_udf => false
  | ConnOp.unregister_udf => true
  | ConnOp.register_bulk => false
  | ConnOp.stream => false
  | ConnOp.arrowIPCStream => true
  | ConnOp.register_buffer => true
  | ConnOp.unregister_buffer => true
  | ConnOp.close => true

/-- The public operations of the Database wrapper. -/
inductive DbOp where
  | close | get_ddb_internal | connect | all | arrowIPCAll | each | exec
  | prepareSync | prepare | runSync | run | register_udf | unregister_udf
  | stream | arrowIPCStream | serialize | parallelize | wait | interrupt
  | register_buffer | unregister_buffer | registerReplacementScan
  deriving Repr, DecidableEq

/-- Which Database operations return a promise, read off the TypeScript
signatures (lines 346-532). -/
def DbOp.returnsPromise : DbOp → Bool
  | DbOp.close => true
  | DbOp.get_ddb_internal => false
  | DbOp.connect => true
  | DbOp.all => true
  | DbOp.arrowIPCAll => true
  | DbOp.each => false
  | DbOp.exec => true
  | DbOp.prepareSync => false
  | DbOp.prepare => true
  | DbOp.runSync => false
  | DbOp.run => true
  | DbOp.register_udf => false
  | DbOp.unregister_udf => true
  | DbOp.stream => false
  | DbOp.arrowIPCStream => true
  | DbOp.serialize => true
  | DbOp.parallelize => true
  | DbOp.wait => true
  | DbOp.interrupt => false
  | DbOp.register_buffer => true
  | DbOp.unregister_buffer => true
  | DbOp.registerReplacementScan => true

/-- The public operations of the Statement wrapper. -/
inductive StmtOp where
  | all | arrowIPCAll | each | runSync | run | finalize | columns
  deriving Repr, DecidableEq

/-- Which Statement operations return a promise, read off the TypeScript
signatures (lines 571-612). -/
def StmtOp.returnsPromise : StmtOp → Bool
  | StmtOp.all => true
  | StmtOp.arrowIPCAll => true
  | StmtOp.each => false
  | StmtOp.runSync => false
  | StmtOp.run => true
  | StmtOp.finalize => true
  | StmtOp.columns => false

/-- What a caller observes from one method invocation: a synchronous
throw of a local error, a returned promise already rejected with a local
error (and no native call made), completion with no native call, or a
forwarding to the native layer. -/
inductive OpObs where
  | threw (msg : String)
  | rejected (msg : String)
  | completed
  | forwarded
  deriving Repr, DecidableEq

/-- The invocation failed with an adapter-local error (either channel). -/
def OpObs.isLocalFailure : OpObs → Bool
  | OpObs.threw _ => true
  | OpObs.rejected _ => true
  | _ => false

/-- The locally raised message, when the invocation failed locally. -/
def OpObs.localMsg : OpObs → Option String
  | OpObs.threw m => some m
  | OpObs.rejected m => some m
  | _ => none

/-- Observation of a promise-returning method: a rejected-local promise
counts as a local failure only when no native call was made, which is how
every such rejection arises in the source. -/
def obsOfPromise {α : Type} : MethodResult (Promise α) → OpObs
  | MethodResult.throwSync m => OpObs.threw m
  | MethodResult.returns [] (Promise.rejectedLocal m) => OpObs.rejected m
  | MethodResult.returns [] _ => OpObs.completed
  | MethodResult.returns (_ :: _) _ => OpObs.forwarded

/-- Observation of a method returning a plain value. -/
def obsOfSync {α : Type} : MethodResult α → OpObs
  | MethodResult.throwSync m => OpObs.threw m
  | MethodResult.returns [] _ => OpObs.completed
  | MethodResult.returns (_ :: _) _ => OpObs.forwarded

/-- Dispatcher over every public Connection operation, forwarding the
generic argument material to the specific method signatures. -/
def Connection.invoke (env : NativeEnv) (c : Connection) (op : ConnOp)
    (name sql : String) (args : List JSVal) (array : JSVal) (force : Bool) :
    OpObs :=
  match op with
  | ConnOp.all => obsOfPromise (Connection.all env c sql args)
  | ConnOp.arrowIPCAll => obsOfPromise (Connection.arrowIPCAll env c sql args)
  | ConnOp.each => obsOfSync (Connection.each c sql args)
  | ConnOp.exec => obsOfPromise (Connection.exec env c sql args)
  | ConnOp.prepareSync => obsOfSync (Connection.prepareSync env c sql args)
  | ConnOp.prepare => obsOfPromise (Connection.prepare env c sql args)
  | ConnOp.runSync => obsOfSync (Connection.runSync env c sql args)
  | ConnOp.run => obsOfPromise (Connection.run env c sql args)
  | ConnOp.register_udf => obsOfSync (Connection.register_udf c name sql array)
  | ConnOp.unregister_udf => obsOfPromise (Connection.unregister_udf env c name)
  | ConnOp.register_bulk => obsOfSync (Connection.register_bulk c name sql array)
  | ConnOp.stream => obsOfSync (Connection.stream c sql args)
  | ConnOp.arrowIPCStream => obsOfPromise (Connection.arrowIPCStream env c sql args)
  | ConnOp.register_buffer =>
      obsOfPromise (Connection.register_buffer env c name array force)
  | ConnOp.unregister_buffer => obsOfPromise (Connection.unregister_buffer env c name)
  | ConnOp.close => obsOfPromise (Connection.close env c).1

/-- Dispatcher over every public Database operation. -/
def Database.invoke (env : NativeEnv) (d : Database) (op : DbOp)
    (name sql : String) (args : List JSVal) (array : JSVal) (force : Bool) :
    OpObs :=
  match op with
  | DbOp.close => obsOfPromise (Database.close env d).1
  | DbOp.get_ddb_internal => obsOfSync (Database.get_ddb_internal d)
  | DbOp.connect => obsOfPromise (Database.connect env d)
  | DbOp.all => obsOfPromise (Database.all env d sql args)
  | DbOp.arrowIPCAll => obsOfPromise (Database.arrowIPCAll env d sql args)
  | DbOp.each => obsOfSync (Database.each d sql args)
  | DbOp.exec => obsOfPromise (Database.exec env d sql args)
  | DbOp.prepareSync => obsOfSync (Database.prepareSync env d sql args)
  | DbOp.prepare => obsOfPromise (Database.prepare env d sql args)
  | DbOp.runSync => obsOfSync (Database.runSync env d sql args)
  | DbOp.run => obsOfPromise (Database.run env d sql args)
  | DbOp.register_udf => obsOfSync (Database.register_udf d name sql array)
  | DbOp.unregister_udf => obsOfPromise (Database.unregister_udf env d name)
  | DbOp.stream => obsOfSync (Database.stream d sql args)
  | DbOp.arrowIPCStream => obsOfPromise (Database.arrowIPCStream env d sql args)
  | DbOp.serialize => obsOfPromise (Database.serialize env d)
  | DbOp.parallelize => obsOfPromise (Database.parallelize env d)
  | DbOp.wait => obsOfPromise (Database.wait env d)
  | DbOp.interrupt => obsOfSync (Database.interrupt d)
  | DbOp.register_buffer =>
      obsOfPromise (Database.register_buffer env d name array force)
  | DbOp.unregister_buffer => obsOfPromise (Database.unregister_buffer env d name)
  | DbOp.registerReplacementScan =>
      obsOfPromise (Database.registerReplacementScan env d array)

/-- Dispatcher over every public Statement operation. -/
def Statement.invoke (env : NativeEnv) (s : Statement) (op : StmtOp)
    (args : List JSVal) : OpObs :=
  match op with
  | StmtOp.all => obsOfPromise (Statement.all env s args)
  | StmtOp.arrowIPCAll => obsOfPromise (Statement.arrowIPCAll env s args)
  | StmtOp.each => obsOfSync (Statement.each s args)
  | StmtOp.runSync => obsOfSync (Statement.runSync s args)
  | StmtOp.run => obsOfPromise (Statement.run env s args)
  | StmtOp.finalize => obsOfPromise (Statement.finalize env s)
  | StmtOp.columns => obsOfSync (Statement.columns env s)

/-- A concrete native environment in which every native call succeeds. -/
def env0 : NativeEnv where
  result := fun _ => none
  stmtOf := fun _ => ⟨0⟩
  connOf := fun _ => ⟨0⟩
  openOf := fun _ => ⟨0⟩
  columnsOf := fun _ => []

/-- A world holding one Database wrapper and the Connection wrappers
spawned from it, used to state frame properties of close. -/
structure World where
  db : Database
  conns : List Connection

/-- Closing the connection at index i of a world: only that list entry is
replaced by the state Connection.close leaves behind. -/
def World.closeConn (env : NativeEnv) (w : World) (i : Nat) : World :=
  match w.conns.get? i with
  | none => w
  | some c => { w with conns := w.conns.set i (Connection.close env c).2 }

/-- C1 (amended): for Database and Connection, every public operation
invoked after the handle has been invalidated fails with a local error
(synchronous throw or immediately rejected promise, matching the method
shape) before and instead of any call into the native layer; Statement
operations, by contrast, perform no validity check after finalize and
forward to the native layer (see the counterexample). -/
theorem c1_closed_handle_fails_locally (env : NativeEnv) (opC : ConnOp)
    (opD : DbOp) (name sql : String) (args : List JSVal) (array : JSVal)
    (force : Bool) :
    (Connection.invoke env ⟨none⟩ opC name sql args array force).isLocalFailure = true
    ∧ (Database.invoke env ⟨none⟩ opD name sql args array force).isLocalFailure = true := by
  constructor
  · cases opC <;> rfl
  · cases opD <;> rfl

/-- C1 counterexample: a Statement on which finalize has completed is
unchanged as a wrapper (finalize neither checks nor clears the handle),
and a subsequent run is forwarded to the native layer rather than failing
with a local error, refuting the claim for the Statement wrapper. -/
theorem c1_statement_after_finalize_still_forwards :
    Statement.finalize env0 ⟨⟨0⟩⟩
        = MethodResult.returns
            [⟨NativeTarget.stmt ⟨0⟩, "finalize", [JSVal.promisifyCallback]⟩]
            (Promise.resolved ())
    ∧ Statement.invoke env0 ⟨⟨0⟩⟩ StmtOp.run [] = OpObs.forwarded
    ∧ (Statement.invoke env0 ⟨⟨0⟩⟩ StmtOp.run []).isLocalFailure = false := by
  exact ⟨rfl, rfl, rfl⟩

/-- C2: evaluation at the failing inputs.  On a closed Database, run
raises a message naming runSync, and arrowIPCAll raises a message naming
the connection resource, so the local error does not always name the
resource and operation actually involved. -/
theorem c2_error_message_copy_slips :
    (Database.invoke env0 ⟨none⟩ DbOp.run "n" "select 1" [] (JSVal.fn 0) true).localMsg
        = some "Database.runSync: uninitialized database"
    ∧ (Database.invoke env0 ⟨none⟩ DbOp.arrowIPCAll "n" "select 1" []
        (JSVal.fn 0) true).localMsg
        = some "Database.arrowIPCAll: uninitialized connection"
    ∧ "Database.runSync: uninitialized database"
        ≠ "Database.run: uninitialized database"
    ∧ "Database.arrowIPCAll: uninitialized connection"
        ≠ "Database.arrowIPCAll: uninitialized database" := by
  refine ⟨rfl, rfl, by decide, by decide⟩

/-- C5: a successful Connection.close invalidates only that Connection:
the owning Database wrapper and every other Connection in the world are
unchanged; afterwards all on the closed Connection rejects locally citing
an uninitialized connection while all on the Database still reaches the
native layer. -/
theorem c5_connection_close_frame (env : NativeEnv) (w : World) (i : Nat)
    (h : NativeConn) (hd : NativeDb) (sql : String) (args : List JSVal)
    (hc : w.conns.get? i = some ⟨some h⟩)
    (hdb : w.db = ⟨some hd⟩)
    (hok : env.result ⟨NativeTarget.conn h, "close", [JSVal.promisifyCallback]⟩ = none) :
    (World.closeConn env w i).db = w.db
    ∧ (∀ j, j ≠ i → (World.closeConn env w i).conns.get? j = w.conns.get? j)
    ∧ (World.closeConn env w i).conns.get? i = some ⟨none⟩
    ∧ obsOfPromise (Connection.all env ⟨none⟩ sql args)
        = OpObs.rejected "Connection.all: uninitialized connection"
    ∧ obsOfPromise (Database.all env w.db sql args) = OpObs.forwarded := by
  have hlen : i < w.conns.length := by
    rcases List.get?_eq_some.mp hc with ⟨hlt, _⟩
    exact hlt
  have hclose : (Connection.close env ⟨some h⟩).2 = ⟨none⟩ := by
    simp [Connection.close, hok]
  have hw : World.closeConn env w i
      = { w with conns := w.conns.set i (Connection.close env ⟨some h⟩).2 } := by
    unfold World.closeConn
    rw [hc]
  refine ⟨?_, ?_, ?_, rfl, ?_⟩
  · rw [hw]
  · intro j hj
    rw [hw]
    exact List.get?_set_ne _ _ (fun e => hj e.symm)
  · rw [hw, hclose]
    exact List.get?_set_eq_of_lt _ hlen
  · rw [hdb]
    rfl

/-- C5 witness: a concrete world with a database and two open
connections; closing connection 0 leaves the database and connection 1
untouched while connection 0 becomes uninitialized. -/
theorem c5_connection_close_frame_witness :
    (World.closeConn env0 ⟨⟨some ⟨7⟩⟩, [⟨some ⟨0⟩⟩, ⟨some ⟨1⟩⟩]⟩ 0).db = ⟨some ⟨7⟩⟩
    ∧ (World.closeConn env0 ⟨⟨some ⟨7⟩⟩, [⟨some ⟨0⟩⟩, ⟨some ⟨1⟩⟩]⟩ 0).conns.get? 1
        = some ⟨some ⟨1⟩⟩
    ∧ (World.closeConn env0 ⟨⟨some ⟨7⟩⟩, [⟨some ⟨0⟩⟩, ⟨some ⟨1⟩⟩]⟩ 0).conns.get? 0
        = some ⟨none⟩
    ∧ obsOfPromise (Connection.all env0 ⟨none⟩ "select 1" [])
        = OpObs.rejected "Connection.all: uninitialized connection"
    ∧ obsOfPromise (Database.all env0 ⟨some ⟨7⟩⟩ "select 1" []) = OpObs.forwarded := by
  have r := c5_connection_close_frame env0 ⟨⟨some ⟨7⟩⟩, [⟨some ⟨0⟩⟩, ⟨some ⟨1⟩⟩]⟩ 0
    ⟨0⟩ ⟨7⟩ "select 1" [] rfl rfl rfl
  exact ⟨r.1, r.2.1 1 (by decide), r.2.2.1, r.2.2.2.1, r.2.2.2.2⟩

/-- C6: Statement.runSync returns the very Statement it was invoked on,
and Statement.run, when the native run succeeds, resolves to that very
Statement, allowing chaining into finalize. -/
theorem c6_statement_run_returns_self (env : NativeEnv) (s : Statement)
    (args : List JSVal)
    (hok : env.result ⟨NativeTarget.stmt s.stmt, "run",
        args ++ [JSVal.promisifyCallback]⟩ = none) :
    Statement.runSync s args
        = MethodResult.returns [⟨NativeTarget.stmt s.stmt, "run", args⟩] s
    ∧ Statement.run env s args
        = MethodResult.returns
            [⟨NativeTarget.stmt s.stmt, "run", args ++ [JSVal.promisifyCallback]⟩]
            (Promise.resolved s) := by
  constructor
  · rfl
  · simp [Statement.run, bridgedCall, hok]

/-- C6 witness: concrete statement, empty argument list, all-success
native environment. -/
theorem c6_statement_run_returns_self_witness :
    Statement.runSync ⟨⟨0⟩⟩ []
        = MethodResult.returns [⟨NativeTarget.stmt ⟨0⟩, "run", []⟩] ⟨⟨0⟩⟩
    ∧ Statement.run env0 ⟨⟨0⟩⟩ []
        = MethodResult.returns
            [⟨NativeTarget.stmt ⟨0⟩, "run", [JSVal.promisifyCallback]⟩]
            (Promise.resolved ⟨⟨0⟩⟩) :=
  c6_statement_run_returns_self env0 ⟨⟨0⟩⟩ [] rfl

/-- C7: each on every wrapper with a valid handle is not bridged: the
native each receives the argument list, whose trailing element is the
per-row callback, verbatim, with no bridge-generated callback appended,
and the method returns no promise (returnsPromise is false, matching the
void return type in the source). -/
theorem c7_each_keeps_callback_contract (hc : NativeConn) (hd : NativeDb)
    (s : Statement) (sql : String) (args : List JSVal) (cb : JSVal) :
    Connection.each ⟨some hc⟩ sql (args ++ [cb])
        = MethodResult.returns
            [⟨NativeTarget.conn hc, "each", JSVal.str sql :: (args ++ [cb])⟩] ()
    ∧ Database.each ⟨some hd⟩ sql (args ++ [cb])
        = MethodResult.returns
            [⟨NativeTarget.db hd, "each", JSVal.str sql :: (args ++ [cb])⟩] ()
    ∧ Statement.each s (args ++ [cb])
        = MethodResult.returns
            [⟨NativeTarget.stmt s.stmt, "each", args ++ [cb]⟩] ()
    ∧ ConnOp.returnsPromise ConnOp.each = false
    ∧ DbOp.returnsPromise DbOp.each = false
    ∧ StmtOp.returnsPromise StmtOp.each = false := by
  exact ⟨rfl, rfl, rfl, rfl, rfl, rfl⟩

/-- C8: the synchronous variants prepareSync and runSync on Database and
Connection, and columns on Statement, return plain values rather than
promises (no suspension), and prepareSync yields a Statement wrapper
around exactly the plan the direct native prepare call produces. -/
theorem c8_sync_variants_do_not_suspend (env : NativeEnv) (hd : NativeDb)
    (hc : NativeConn) (s : Statement) (sql : String) (args : List JSVal) :
    DbOp.returnsPromise DbOp.prepareSync = false
    ∧ DbOp.returnsPromise DbOp.runSync = false
    ∧ ConnOp.returnsPromise ConnOp.prepareSync = false
    ∧ ConnOp.returnsPromise ConnOp.runSync = false
    ∧ StmtOp.returnsPromise StmtOp.columns = false
    ∧ Database.prepareSync env ⟨some hd⟩ sql args
        = MethodResult.returns [⟨NativeTarget.db hd, "prepare", JSVal.str sql :: args⟩]
            (Statement.create_internal
              (env.stmtOf ⟨NativeTarget.db hd, "prepare", JSVal.str sql :: args⟩))
    ∧ Connection.prepareSync env ⟨some hc⟩ sql args
        = MethodResult.returns [⟨NativeTarget.conn hc, "prepare", JSVal.str sql :: args⟩]
            (Statement.create_internal
              (env.stmtOf ⟨NativeTarget.conn hc, "prepare", JSVal.str sql :: args⟩))
    ∧ Statement.columns env s
        = MethodResult.returns [⟨NativeTarget.stmt s.stmt, "columns", []⟩]
            (env.columnsOf s.stmt) := by
  exact ⟨rfl, rfl, rfl, rfl, rfl, rfl, rfl, rfl⟩

/-- C10: connect on a Database whose handle has been invalidated does not
throw synchronously: it returns (does not throw) a promise rejected with
the local error naming Database.get_ddb_internal and an uninitialized
database, and no native call is made. -/
theorem c10_connect_on_closed_database (env : NativeEnv) (d : Database)
    (hclosed : d.db = none) :
    Database.connect env d
      = MethodResult.returns []
          (Promise.rejectedLocal "Database.get_ddb_internal: uninitialized database") := by
  obtain ⟨o⟩ := d
  have ho : o = none := hclosed
  subst ho
  rfl

/-- C10 witness: the concrete closed Database. -/
theorem c10_connect_on_closed_database_witness :
    Database.connect env0 ⟨none⟩
      = MethodResult.returns []
          (Promise.rejectedLocal "Database.get_ddb_internal: uninitialized database") :=
  c10_connect_on_closed_database env0 ⟨none⟩ rfl
